import Mathlib

/-!
Shallow embedding of `sds_data_manager/lambda_code/SDSCode/upload_api.py`.

The module has three pieces of logic:
* `_check_for_matching_filetype(pattern, filename)` — tokenizes the filename
  (underscores replaced by dots, then split on dots) and matches the tokens
  pairwise against an ordered pattern of field/value pairs, where the value
  `"*"` is a wildcard;
* a first-match loop over the catalog inside `_generate_signed_upload_url`,
  followed by a presigned-URL request to the object store;
* `lambda_handler`, the HTTP boundary.

External collaborators are made explicit parameters: the catalog that
`_load_allowed_filenames` would fetch from the configuration store is passed
in as a list, and `boto3`'s `generate_presigned_url` is passed in as an
abstract signing function `sign : SignParams → String` together with the
record of parameters the code hands it.  Python runtime faults that the code
can raise (KeyError / TypeError on indexing, UnboundLocalError after a loop
that never ran) are modelled with `Except PyFault`.
-/

set_option autoImplicit false

/-- One catalog entry of `config.json`: `{"path": ..., "pattern": {...}}`.
The pattern is an insertion-ordered mapping, modelled as an association
list. -/
structure Filetype where
  path : String
  pattern : List (String × String)
  deriving DecidableEq

/-- Python runtime faults relevant to this module.  `keyError` stands for the
unhandled KeyError/TypeError raised when `event["queryStringParameters"]` is
absent or `None`; `unboundLocal` for the UnboundLocalError raised when a
local variable is read after a `for` loop whose body never executed. -/
inductive PyFault where
  | keyError (key : String)
  | unboundLocal (v : String)
  deriving DecidableEq

/-- Python `filename.replace("_", ".")`: both arguments are single
characters, so this is a character map over the string. -/
def pyReplaceUnderscore (filename : String) : List Char :=
  filename.data.map fun c => if c = '_' then '.' else c

/-- Helper for Python `str.split(".")`: walk the characters, cutting at every
dot; `acc` holds the (reversed) characters of the current token. -/
def splitOnDotAux : List Char → List Char → List String
  | [], acc => [String.mk acc.reverse]
  | c :: cs, acc =>
    if c = '.' then String.mk acc.reverse :: splitOnDotAux cs []
    else splitOnDotAux cs (c :: acc)

/-- `filename.replace("_", ".").split(".")` from line 37 of the source.
Like Python's `split` with an explicit separator, it yields `[""]` on the
empty string and never an empty list. -/
def tokenize (filename : String) : List String :=
  splitOnDotAux (pyReplaceUnderscore filename) []

/-- The field-walking loop of `_check_for_matching_filetype` (lines 42-53):
fields and tokens are consumed pairwise in declared order; a `"*"` value
accepts any token, any other value must equal the token exactly, and the
first mismatch aborts with `none`.  On success the accumulated
`file_dictionary` is returned in field order. -/
def matchFields : List (String × String) → List String → Option (List (String × String))
  | [], [] => some []
  | [], _ :: _ => none
  | _ :: _, [] => none
  | (field, pval) :: pat, tok :: toks =>
    if pval = "*" then
      (matchFields pat toks).map fun file_dictionary => (field, tok) :: file_dictionary
    else if pval = tok then
      (matchFields pat toks).map fun file_dictionary => (field, tok) :: file_dictionary
    else
      none

/-- `_check_for_matching_filetype(pattern, filename)` (lines 28-53): tokenize
the filename, reject on token-count mismatch, otherwise walk the fields. -/
def _check_for_matching_filetype (pattern : List (String × String)) (filename : String) :
    Option (List (String × String)) :=
  let split_filename := tokenize filename
  if split_filename.length ≠ pattern.length then none
  else matchFields pattern split_filename

/-- The `for filetype in filetypes` loop of `_generate_signed_upload_url`
(lines 66-70), returning the values of the locals `path_to_upload_file` and
`metadata` after the loop: `none` means the loop body never ran, so both
locals are unbound.  On a match the loop breaks with that entry's values;
if the loop ends without a break the locals keep the last iteration's
values (`metadata = none`), which the `getD` default reproduces. -/
def findMatchingFiletype : List Filetype → String → Option (String × Option (List (String × String)))
  | [], _ => none
  | filetype :: rest, filename =>
    let path_to_upload_file := filetype.path
    let metadata := _check_for_matching_filetype filetype.pattern filename
    if metadata.isSome then
      some (path_to_upload_file, metadata)
    else
      some ((findMatchingFiletype rest filename).getD (path_to_upload_file, metadata))

/-- The parameter record the code passes to `generate_presigned_url`
(lines 77-85): `Params={"Bucket": bucket_name[5:], "Key": path + filename,
"Metadata": tags or dict()}` and `ExpiresIn=3600`. -/
structure SignParams where
  bucket : String
  key : String
  metadata : List (String × String)
  expiresIn : Nat
  deriving DecidableEq

/-- Python slicing `s[n:]` on a string (by code point). -/
def pySliceFrom (s : String) (n : Nat) : String :=
  String.mk (s.data.drop n)

/-- Python `tags or dict()` (line 82): `None` and the empty dict are falsy,
so both yield the empty dict; any non-empty dict is returned unchanged. -/
def pyDictOrEmpty (tags : Option (List (String × String))) : List (String × String) :=
  match tags with
  | none => []
  | some d => if d = [] then [] else d

/-- `_generate_signed_upload_url(filename, tags)` (lines 56-87).  The catalog
`filetypes` stands for the result of `_load_allowed_filenames()`, the
environment variable `S3_BUCKET` is the `s3_bucket` argument, and the boto3
signing call is the abstract `sign` function applied to the exact parameter
record the code builds.  Reading `metadata` after a loop over an empty
catalog raises UnboundLocalError (line 72). -/
def _generate_signed_upload_url (sign : SignParams → String) (filetypes : List Filetype)
    (s3_bucket : String) (filename : String) (tags : Option (List (String × String))) :
    Except PyFault (Option String) :=
  match findMatchingFiletype filetypes filename with
  | none => .error (.unboundLocal "metadata")
  | some (_, none) => .ok none
  | some (path_to_upload_file, some _) =>
    .ok (some (sign
      { bucket := pySliceFrom s3_bucket 5
        key := path_to_upload_file ++ filename
        metadata := pyDictOrEmpty tags
        expiresIn := 3600 }))

/-- A `{"statusCode": ..., "body": ...}` response dictionary. -/
structure Response where
  statusCode : Nat
  body : String
  deriving DecidableEq

/-- The lambda event; only `queryStringParameters` is read.  `none` covers
both an absent key and a `None` value — either way, indexing into it
faults. -/
structure Event where
  queryStringParameters : Option (List (String × String))
  deriving DecidableEq

/-- `json.dumps` applied to a string value: wrap in quotes, escaping
backslashes and quotes (the only escapes the strings in this module could
need). -/
def pyJsonDumps (s : String) : String :=
  String.mk ('\"' :: (s.data.map fun c =>
    if c = '\"' ∨ c = '\\' then ['\\', c] else [c]).flatten ++ ['\"'])

/-- `lambda_handler(event, context)` (lines 90-126).  Besides the response,
the second component counts how many times `_load_allowed_filenames` (the
configuration-store fetch inside `_generate_signed_upload_url`) would have
been invoked on this path: 0 on the early returns, 1 once
`_generate_signed_upload_url` is called. -/
def lambda_handler (sign : SignParams → String) (catalog : List Filetype)
    (s3_bucket : String) (event : Event) : Except PyFault Response × Nat :=
  match event.queryStringParameters with
  | none => (.error (.keyError "queryStringParameters"), 0)
  | some qsp =>
    match qsp.lookup "filename" with
    | none =>
      (.ok { statusCode := 400, body := pyJsonDumps "Please specify a filename to upload" }, 0)
    | some filename =>
      match _generate_signed_upload_url sign catalog s3_bucket filename (some qsp) with
      | .error f => (.error f, 1)
      | .ok none =>
        (.ok { statusCode := 400,
               body := pyJsonDumps ("A pre-signed URL could not be generated. Please ensure that the " ++
                 "file name matches mission file naming conventions.") }, 1)
      | .ok (some url) =>
        (.ok { statusCode := 200, body := pyJsonDumps url }, 1)

/-- The field-walking loop is extensionally a pairwise test over the zip of
pattern and tokens: it succeeds exactly when every field's value is the
wildcard `"*"` or equals its token, and then returns each field name paired
with its token, in field order. -/
lemma matchFields_eq_zip :
    ∀ (p : List (String × String)) (t : List String), p.length = t.length →
      matchFields p t =
        if (p.zip t).all (fun x => x.1.2 == "*" || x.1.2 == x.2) then
          some ((p.zip t).map fun x => (x.1.1, x.2))
        else none
  | [], [], _ => by simp [matchFields]
  | [], _ :: _, h => by simp at h
  | _ :: _, [], h => by simp at h
  | (field, pval) :: pat, tok :: toks, h => by
    have hlen : pat.length = toks.length := by simpa using h
    have ih := matchFields_eq_zip pat toks hlen
    by_cases hstar : pval = "*"
    · subst hstar
      simp only [matchFields, if_pos rfl, ih, List.zip_cons_cons, List.all_cons,
        beq_self_eq_true, Bool.true_or, Bool.true_and, List.map_cons]
      by_cases hall : ((pat.zip toks).all fun x => x.1.2 == "*" || x.1.2 == x.2) = true
      · simp [hall]
      · simp [hall]
    · by_cases heq : pval = tok
      · subst heq
        simp only [matchFields, if_neg hstar, if_pos rfl, ih, List.zip_cons_cons,
          List.all_cons, beq_self_eq_true, Bool.or_true, Bool.true_and, List.map_cons]
        by_cases hall : ((pat.zip toks).all fun x => x.1.2 == "*" || x.1.2 == x.2) = true
        · simp [hall]
        · simp [hall]
      · have hcond : (pval == "*" || pval == tok) = false := by
          simp [hstar, heq]
        simp [matchFields, if_neg hstar, if_neg heq, hcond]

/-- The catalog loop returns the earliest matching entry: entries before it
all fail, the entry itself matches, and whatever follows it is never
consulted. -/
lemma findMatchingFiletype_first (pre post : List Filetype) (e : Filetype) (filename : String)
    (hpre : ∀ ft ∈ pre, _check_for_matching_filetype ft.pattern filename = none)
    (he : (_check_for_matching_filetype e.pattern filename).isSome) :
    findMatchingFiletype (pre ++ e :: post) filename
      = some (e.path, _check_for_matching_filetype e.pattern filename) := by
  induction pre with
  | nil =>
    simp only [List.nil_append, findMatchingFiletype]
    rw [if_pos he]
  | cons x pre ih =>
    have hx : _check_for_matching_filetype x.pattern filename = none :=
      hpre x (by simp)
    have hpre2 : ∀ ft ∈ pre, _check_for_matching_filetype ft.pattern filename = none :=
      fun ft hft => hpre ft (by simp [hft])
    simp only [List.cons_append, findMatchingFiletype, hx, Option.isSome_none,
      Bool.false_eq_true, if_false]
    rw [show pre.append (e :: post) = pre ++ e :: post from rfl, ih hpre2, Option.getD_some]

/-- `tags or dict()` embeds exactly the supplied mapping, defaulting to the
empty mapping. -/
lemma pyDictOrEmpty_eq_getD (tags : Option (List (String × String))) :
    pyDictOrEmpty tags = tags.getD [] := by
  cases tags with
  | none => rfl
  | some d => cases d <;> simp [pyDictOrEmpty]

example : tokenize "imap_mag_l0_20240101.pkts" = ["imap", "mag", "l0", "20240101", "pkts"] := by
  decide

example : _check_for_matching_filetype [("mission", "imap"), ("level", "*")] "imap.l0"
    = some [("mission", "imap"), ("level", "l0")] := by decide

example : _check_for_matching_filetype [("mission", "imap"), ("level", "*")] "esa.l0"
    = none := by decide

/-- C1: for every pattern and every filename whose token count equals the
pattern's field count, the match walks fields and tokens pairwise in
declared order — a wildcard field accepts any token and records
field→token, a literal field requires exact case-sensitive equality with
its token — and the result is `none` exactly when some literal field
mismatches (so a single mismatch yields no-match irrespective of the
remaining fields), and otherwise exactly the mapping of each field name to
its corresponding token. -/
theorem C1_match_pairwise (pattern : List (String × String)) (filename : String)
    (h : (tokenize filename).length = pattern.length) :
    _check_for_matching_filetype pattern filename =
      if (pattern.zip (tokenize filename)).all (fun x => x.1.2 == "*" || x.1.2 == x.2) then
        some ((pattern.zip (tokenize filename)).map fun x => (x.1.1, x.2))
      else none := by
  simp only [_check_for_matching_filetype]
  rw [if_neg (not_not_intro h)]
  exact matchFields_eq_zip pattern (tokenize filename) h.symm

theorem C1_witness :
    0 < ([("mission", "imap"), ("level", "*")] : List (String × String)).length ∧
      _check_for_matching_filetype [("mission", "imap"), ("level", "*")] "imap.l0"
        = some [("mission", "imap"), ("level", "l0")] :=
  ⟨by decide,
    (C1_match_pairwise [("mission", "imap"), ("level", "*")] "imap.l0" (by decide)).trans
      (by decide)⟩

/-- C2: whenever the token count of the filename (underscores replaced by
dots, then split on dots) differs from the pattern's field count, the match
returns no-match, whatever the fields and tokens contain. -/
theorem C2_token_count_mismatch (pattern : List (String × String)) (filename : String)
    (h : (tokenize filename).length ≠ pattern.length) :
    _check_for_matching_filetype pattern filename = none := by
  simp only [_check_for_matching_filetype]
  rw [if_pos h]

theorem C2_witness :
    (tokenize "imap_mag_l0_20240101.pkts").length ≠
        ([("mission", "imap"), ("instrument", "*")] : List (String × String)).length ∧
      _check_for_matching_filetype [("mission", "imap"), ("instrument", "*")]
        "imap_mag_l0_20240101.pkts" = none :=
  ⟨by decide,
    C2_token_count_mismatch [("mission", "imap"), ("instrument", "*")]
      "imap_mag_l0_20240101.pkts" (by decide)⟩

/-- C3: when the catalog decomposes as `pre ++ e :: post` where every entry
of `pre` fails to match and `e` matches, the first-match loop returns
entry `e`'s path together with `e`'s match result — the earliest capable
entry wins, whatever `post` contains, and only that single entry's match
result is produced. -/
theorem C3_first_match_precedence (pre post : List Filetype) (e : Filetype) (filename : String)
    (hpre : ∀ ft ∈ pre, _check_for_matching_filetype ft.pattern filename = none)
    (he : (_check_for_matching_filetype e.pattern filename).isSome) :
    findMatchingFiletype (pre ++ e :: post) filename
      = some (e.path, _check_for_matching_filetype e.pattern filename) :=
  findMatchingFiletype_first pre post e filename hpre he

theorem C3_witness :
    findMatchingFiletype
        [⟨"a/", [("m", "esa")]⟩, ⟨"b/", [("m", "*")]⟩, ⟨"c/", [("m", "*")]⟩] "imap"
      = some ("b/", some [("m", "imap")]) :=
  (C3_first_match_precedence [⟨"a/", [("m", "esa")]⟩] [⟨"c/", [("m", "*")]⟩]
    ⟨"b/", [("m", "*")]⟩ "imap" (by decide) (by decide)).trans (by decide)

/-- C4 (divergence): against the empty catalog the handler does not return a
400 response — the `for` loop in `_generate_signed_upload_url` never runs,
so reading `metadata` on line 72 raises UnboundLocalError, which propagates
out of the handler as an unhandled fault after one configuration-store
fetch.  This contradicts both the claim and the function's own docstring
("A URL string if the file was found, otherwise None"). -/
theorem C4_empty_catalog_fault :
    lambda_handler (fun p => p.key) [] "s3://sds-bucket"
        ⟨some [("filename", "unknown_file.dat")]⟩
      = (.error (.unboundLocal "metadata"), 1) := rfl

/-- C5 (counterexample): a request whose query parameters carry `filename`
with the empty-string value — so the parameters contain no *non-empty*
filename field — is not answered with the 400 prompt and does trigger a
catalog fetch: with a catalog whose single entry is a one-field wildcard
pattern, the handler returns 200 with a signed URL for key `"p/"`, after
one configuration-store fetch. -/
theorem C5_counterexample :
    lambda_handler (fun p => p.key) [⟨"p/", [("any", "*")]⟩] "s3://b"
        ⟨some [("filename", "")]⟩
      = (.ok ⟨200, "\"p/\""⟩, 1) := rfl

/-- C5 (amended): for every request whose query parameters do not contain a
`filename` key at all — the code tests key presence, not value
non-emptiness — the handler returns status 400 with the prompt to specify
a filename, and no configuration-store fetch is attempted. -/
theorem C5_missing_filename_key (sign : SignParams → String) (catalog : List Filetype)
    (s3_bucket : String) (qsp : List (String × String))
    (h : qsp.lookup "filename" = none) :
    lambda_handler sign catalog s3_bucket ⟨some qsp⟩
      = (.ok ⟨400, pyJsonDumps "Please specify a filename to upload"⟩, 0) := by
  simp only [lambda_handler, h]

theorem C5_witness :
    lambda_handler (fun p => p.key) [] "s3://b" ⟨some [("other", "1")]⟩
      = (.ok ⟨400, pyJsonDumps "Please specify a filename to upload"⟩, 0) :=
  C5_missing_filename_key (fun p => p.key) [] "s3://b" [("other", "1")] (by decide)

/-- C6: when the supplied filename matches some catalog entry (the catalog
decomposes as `pre ++ e :: post` with every entry of `pre` failing and `e`
matching), the handler returns status 200 and the body is the JSON-encoded
issued URL, whose signing request references the destination key
`e.path ++ filename` — the matched entry's path concatenated with the
original, untokenized filename. -/
theorem C6_success_response (sign : SignParams → String) (s3_bucket : String)
    (qsp : List (String × String)) (filename : String)
    (pre post : List Filetype) (e : Filetype)
    (hf : qsp.lookup "filename" = some filename)
    (hpre : ∀ ft ∈ pre, _check_for_matching_filetype ft.pattern filename = none)
    (he : (_check_for_matching_filetype e.pattern filename).isSome) :
    lambda_handler sign (pre ++ e :: post) s3_bucket ⟨some qsp⟩
      = (.ok ⟨200, pyJsonDumps (sign
          { bucket := pySliceFrom s3_bucket 5
            key := e.path ++ filename
            metadata := pyDictOrEmpty (some qsp)
            expiresIn := 3600 })⟩, 1) := by
  obtain ⟨md, hmd⟩ := Option.isSome_iff_exists.mp he
  have hgen : _generate_signed_upload_url sign (pre ++ e :: post) s3_bucket filename (some qsp)
      = .ok (some (sign
          { bucket := pySliceFrom s3_bucket 5
            key := e.path ++ filename
            metadata := pyDictOrEmpty (some qsp)
            expiresIn := 3600 })) := by
    unfold _generate_signed_upload_url
    rw [findMatchingFiletype_first pre post e filename hpre he, hmd]
  simp only [lambda_handler, hf, hgen]

theorem C6_witness :
    lambda_handler (fun p => p.key)
        [⟨"imap/", [("mission", "imap"), ("instrument", "*"), ("level", "*"),
          ("date", "*"), ("version", "*"), ("extension", "cdf")]⟩]
        "s3://sds-bucket"
        ⟨some [("filename", "imap_mag_l0_20240101_v001.cdf")]⟩
      = (.ok ⟨200, "\"imap/imap_mag_l0_20240101_v001.cdf\""⟩, 1) :=
  (C6_success_response (fun p => p.key) "s3://sds-bucket"
    [("filename", "imap_mag_l0_20240101_v001.cdf")] "imap_mag_l0_20240101_v001.cdf"
    [] []
    ⟨"imap/", [("mission", "imap"), ("instrument", "*"), ("level", "*"),
      ("date", "*"), ("version", "*"), ("extension", "cdf")]⟩
    (by decide) (by decide) (by decide)).trans (by rfl)

/-- C7: every successfully issued URL is the signing function applied to a
parameter record with the fixed 3600-second expiry, the supplied metadata
mapping (the empty mapping when none was supplied), and the
environment-provided bucket name with its first 5 characters stripped. -/
theorem C7_sign_request (sign : SignParams → String) (catalog : List Filetype)
    (s3_bucket filename : String) (tags : Option (List (String × String))) (u : String)
    (h : _generate_signed_upload_url sign catalog s3_bucket filename tags = .ok (some u)) :
    ∃ key, u = sign
      { bucket := pySliceFrom s3_bucket 5
        key := key
        metadata := tags.getD []
        expiresIn := 3600 } := by
  unfold _generate_signed_upload_url at h
  cases hfm : findMatchingFiletype catalog filename with
  | none => rw [hfm] at h; exact absurd h (by simp)
  | some pm =>
    obtain ⟨path, md⟩ := pm
    rw [hfm] at h
    cases md with
    | none => exact absurd h (by simp)
    | some d =>
      simp only [Except.ok.injEq, Option.some.injEq] at h
      rw [pyDictOrEmpty_eq_getD] at h
      exact ⟨path ++ filename, h.symm⟩

theorem C7_witness :
    ∃ key, "p/imap" = (fun p : SignParams => p.key)
      { bucket := pySliceFrom "s3://b" 5
        key := key
        metadata := (none : Option (List (String × String))).getD []
        expiresIn := 3600 } :=
  C7_sign_request (fun p : SignParams => p.key) [⟨"p/", [("mission", "imap")]⟩] "s3://b" "imap"
    none "p/imap" (by rfl)

/-- C8: the match operation is deterministic — its result is a function of
the pattern and filename alone, so any two results obtained from identical
inputs coincide (the embedding is pure: no hidden state exists to
consult). -/
theorem C8_deterministic (pattern : List (String × String)) (filename : String)
    (r₁ r₂ : Option (List (String × String)))
    (h₁ : r₁ = _check_for_matching_filetype pattern filename)
    (h₂ : r₂ = _check_for_matching_filetype pattern filename) :
    r₁ = r₂ :=
  h₁.trans h₂.symm

theorem C8_witness :
    (some [("mission", "imap")] : Option (List (String × String)))
      = some [("mission", "imap")] :=
  C8_deterministic [("mission", "*")] "imap" _ _ (by decide) (by decide)

/-- C9: a pattern field whose value is `"*"` is always treated as a
wildcard: whether the walk succeeds is independent of the token standing at
that position (it reduces to the surrounding fields matching their tokens),
so a literal field requiring its token to equal the string `"*"` is
inexpressible — the wildcard branch is tested before the literal-equality
branch and accepts every token. -/
theorem C9_wildcard_shadows_literal (p₁ p₂ : List (String × String)) (f : String)
    (t₁ t₂ : List String) (tok : String)
    (h : p₁.length = t₁.length) :
    (matchFields (p₁ ++ (f, "*") :: p₂) (t₁ ++ tok :: t₂)).isSome
      = ((matchFields p₁ t₁).isSome && (matchFields p₂ t₂).isSome) := by
  induction p₁ generalizing t₁ with
  | nil =>
    cases t₁ with
    | nil =>
      simp only [List.nil_append, matchFields, if_pos rfl]
      simp [matchFields]
    | cons _ _ => simp at h
  | cons hd tl ih =>
    cases t₁ with
    | nil => simp at h
    | cons tk tks =>
      obtain ⟨g, v⟩ := hd
      have hlen : tl.length = tks.length := by simpa using h
      by_cases hstar : v = "*"
      · subst hstar
        simp only [List.cons_append, matchFields, if_pos rfl]
        simp [ih tks hlen]
      · by_cases heq : v = tk
        · subst heq
          simp only [List.cons_append, matchFields, if_neg hstar, if_pos rfl]
          simp [ih tks hlen]
        · simp [List.cons_append, matchFields, if_neg hstar, if_neg heq]

theorem C9_witness :
    ([("mission", "imap")] : List (String × String)).length = (["imap"] : List String).length ∧
      (matchFields ([("mission", "imap")] ++ ("literal", "*") :: []) (["imap"] ++ "anything" :: [])).isSome
        = ((matchFields [("mission", "imap")] ["imap"]).isSome && (matchFields [] []).isSome) :=
  ⟨by decide,
    C9_wildcard_shadows_literal [("mission", "imap")] [] "literal" ["imap"] [] "anything"
      (by decide)⟩

/-- C10: when the event carries no `queryStringParameters` mapping (key
absent or value null), the handler does not return a 400 response — line
108's indexing into the event raises an unhandled KeyError/TypeError before
any response is built, and no configuration-store fetch happens; the 400
paths are reachable only with a mapping present. -/
theorem C10_absent_query_mapping (sign : SignParams → String) (catalog : List Filetype)
    (s3_bucket : String) (event : Event)
    (h : event.queryStringParameters = none) :
    lambda_handler sign catalog s3_bucket event
      = (.error (.keyError "queryStringParameters"), 0) := by
  cases event with
  | mk q =>
    cases q with
    | none => rfl
    | some qsp => exact Option.noConfusion h

theorem C10_witness :
    lambda_handler (fun p => p.key) [] "s3://b" ⟨none⟩
      = (.error (.keyError "queryStringParameters"), 0) :=
  C10_absent_query_mapping (fun p => p.key) [] "s3://b" ⟨none⟩ rfl
